import Mathlib

/-!
Verification of the voice interaction engine of the kidsBot frontend
(`ChatView` in `src/frontend/src/views/RegisterView.tsx`).

The embedding translates the TypeScript source into pure Lean functions:

* the single-flight TTS playback controller (`stopTtsNow`, `speakResponse`)
  becomes a state machine on `TtsState` whose operations return the next
  state together with the list of observable effects they perform;
* the voice-activity monitor (`monitorAudio`) becomes a step function on
  `VadState`, iterated over a list of timestamped energy samples;
* the turn pipeline (`processAudio`) becomes a function from its inputs
  (blob size, VAD outcome, continuous-mode flag, transcription and dialogue
  results) to the list of actions it performs, in order;
* the capture / timer machinery (`startRecording`, `stopRecording`,
  `stopConversation`, `handleModeSwitch`, the 20 s max-duration timeout)
  becomes operations on an `EngineState` that tracks, besides the mutable
  refs of the source, the ghost sets of still-live microphone streams and
  still-recording `MediaRecorder` objects, and the multiset of pending
  max-duration timer deadlines.

Timestamps are integers (milliseconds); energy levels are rationals in
`[0,1]`.  Fresh JS objects (streams, recorders, audio elements, abort
controllers, blob URLs) are identified by natural numbers.
-/

/-- `SILENCE_THRESHOLD = 0.015` from the source (15/1000). -/
def SILENCE_THRESHOLD : ℚ := mkRat 15 1000

/-- `SILENCE_DURATION = 1500` (ms) from the source. -/
def SILENCE_DURATION : Int := 1500

/-- `MAX_RECORD_TIME = 20000` (ms) from the source. -/
def MAX_RECORD_TIME : Int := 20000

/-! ## Voice-activity monitor (`monitorAudio`) -/

/-- The per-session VAD refs: `speechDetectedRef` and `silenceStartRef`. -/
structure VadState where
  speechDetected : Bool
  silenceStart : Option Int
  deriving DecidableEq

/-- Result of one `monitorAudio` tick: the updated VAD refs and whether the
tick called `stopRecording` (and hence did not re-schedule itself). -/
structure MonitorResult where
  vad : VadState
  stopRequested : Bool
  deriving DecidableEq

/-- One tick of `monitorAudio`, given the current energy `level` and the
current time `now` (`Date.now()`), for an active recording session. -/
def monitorAudio (st : VadState) (level : ℚ) (now : Int) : MonitorResult :=
  let isSpeaking := decide (level > SILENCE_THRESHOLD)
  if isSpeaking then
    { vad := { speechDetected := true, silenceStart := none }, stopRequested := false }
  else if st.speechDetected then
    match st.silenceStart with
    | none => { vad := { st with silenceStart := some now }, stopRequested := false }
    | some t0 =>
        if now - t0 > SILENCE_DURATION then
          { vad := st, stopRequested := true }
        else
          { vad := st, stopRequested := false }
  else
    { vad := st, stopRequested := false }

/-- Iterate `monitorAudio` over a list of `(level, time)` samples; the loop
exits as soon as a tick requests a stop (the tick then does not re-schedule
the animation frame).  Returns the final VAD refs and whether a stop was
requested. -/
def monitorRun (st : VadState) : List (ℚ × Int) → VadState × Bool
  | [] => (st, false)
  | s :: rest =>
      let r := monitorAudio st s.1 s.2
      if r.stopRequested then (r.vad, true) else monitorRun r.vad rest

/-! ## Single-flight TTS playback (`stopTtsNow`, `speakResponse`) -/

/-- The TTS refs of the source: `ttsSeqRef`, `ttsAbortRef`, `ttsAudioRef`,
`ttsUrlRef`, `ttsResolveRef`.  The abort controller, audio element, blob URL
and promise resolver created by the call with sequence number `k` are all
identified by `k` itself (each call creates fresh objects). -/
structure TtsState where
  ttsSeq : Nat
  ttsAbort : Option Nat
  ttsAudio : Option Nat
  ttsUrl : Option Nat
  ttsResolve : Option Nat
  deriving DecidableEq

/-- Observable effects of the TTS controller. -/
inductive TtsEffect where
  | abortFetch (c : Nat)
  | stopAudio (a : Nat)
  | revokeUrl (u : Nat)
  | resolveProm (p : Nat)
  | startFetch (k : Nat)
  | playAudio (k : Nat)
  deriving DecidableEq

/-- `stopTtsNow`: abort an in-flight fetch, stop and release playing audio,
revoke the blob URL, and resolve the pending `speak` promise, each guarded
on the corresponding ref being non-null; all four refs end up null. -/
def stopTtsNow (s : TtsState) : TtsState × List TtsEffect :=
  let e1 : List TtsEffect := match s.ttsAbort with
    | some c => [TtsEffect.abortFetch c]
    | none => []
  let e2 : List TtsEffect := match s.ttsAudio with
    | some a => [TtsEffect.stopAudio a]
    | none => []
  let e3 : List TtsEffect := match s.ttsUrl with
    | some u => [TtsEffect.revokeUrl u]
    | none => []
  let e4 : List TtsEffect := match s.ttsResolve with
    | some p => [TtsEffect.resolveProm p]
    | none => []
  ({ ttsSeq := s.ttsSeq, ttsAbort := none, ttsAudio := none,
     ttsUrl := none, ttsResolve := none },
   e1 ++ e2 ++ e3 ++ e4)

/-- The synchronous prefix of `speakResponse`, up to the `await` of the
synthesis fetch: if TTS is disabled, return immediately; otherwise run
`stopTtsNow`, take the next sequence number (`++ttsSeqRef.current`), install
a fresh abort controller, and start the fetch. -/
def speakResponse (ttsEnabled : Bool) (s : TtsState) : TtsState × List TtsEffect :=
  if !ttsEnabled then (s, [])
  else
    let r := stopTtsNow s
    let seq := r.1.ttsSeq + 1
    ({ r.1 with ttsSeq := seq, ttsAbort := some seq },
     r.2 ++ [TtsEffect.startFetch seq])

/-- The continuation of `speakResponse` call `k` when its synthesis fetch
resolves: if a newer call has since bumped `ttsSeqRef`, the result is
discarded (`return`; the `finally` clears the abort ref only if it still
holds this call's controller); otherwise a blob URL and audio element are
installed, the pending resolver is stored, and playback starts. -/
def ttsFetchArrived (s : TtsState) (k : Nat) : TtsState × List TtsEffect :=
  if k ≠ s.ttsSeq then
    (if s.ttsAbort = some k then { s with ttsAbort := none } else s, [])
  else
    ({ s with ttsUrl := some k, ttsAudio := some k, ttsResolve := some k },
     [TtsEffect.playAudio k])

/-- `cleanupAndResolve` of call `k` (fired on `onended`, `onerror`, or a
`play()` rejection), followed by the `finally` block of the resumed
coroutine: each ref is cleared only if it still belongs to call `k`; the
blob URL is revoked; the promise is resolved. -/
def ttsAudioEnded (s : TtsState) (k : Nat) : TtsState × List TtsEffect :=
  let s1 := if s.ttsResolve = some k then { s with ttsResolve := none } else s
  let s2 := if s1.ttsAudio = some k then { s1 with ttsAudio := none } else s1
  let r3 : TtsState × List TtsEffect :=
    if s2.ttsUrl = some k then
      ({ s2 with ttsUrl := none }, [TtsEffect.revokeUrl k])
    else (s2, [])
  let s4 := if r3.1.ttsAbort = some k then { r3.1 with ttsAbort := none } else r3.1
  (s4, r3.2 ++ [TtsEffect.resolveProm k])

/-- The `catch`/`finally` continuation of call `k` when its fetch rejects
(abort or network error): nothing is played; the abort ref is cleared only
if it still holds this call's controller. -/
def ttsFetchFailed (s : TtsState) (k : Nat) : TtsState × List TtsEffect :=
  (if s.ttsAbort = some k then { s with ttsAbort := none } else s, [])

/-! ## The turn pipeline (`processAudio`) -/

/-- The `jarvisPhase` values of the store (the ConversationState). -/
inductive JarvisPhase where
  | idle
  | listening
  | processing
  | speaking
  deriving DecidableEq

/-- The dialogue service result: `{ response, language? }`. -/
structure ChatOutcome where
  response : String
  language : Option String
  deriving DecidableEq

/-- The actions `processAudio` performs, in program order. -/
inductive TurnAction where
  | setPhase (p : JarvisPhase)
  | setListening (b : Bool)
  | scheduleRestart (delayMs : Int)
  | callTranscribe
  | speak (text : String)
  | addUserMessage (text : String)
  | callChat (text mode lang : String)
  | setLanguage (l : String)
  | addAssistantMessage (text : String)
  deriving DecidableEq

/-- The apology spoken when transcription fails or returns empty text. -/
def hearApology : String := "I couldn\x27t hear that. Please try again."

/-- The apology spoken from the outer catch of `processAudio`. -/
def errorApology : String := "Sorry, something went wrong!"

/-- `processAudio`, as the list of actions it performs, parameterized by
its inputs and by the results of the awaited service calls:

* `blobSize`, `speechDetected`: the encoded blob and the VAD outcome;
* `scEntry`: `shouldContinueRef.current` as read at the no-speech gate;
* `tr`: the transcription result (`none` means the fetch threw, landing in
  the outer catch);
* `mode`, `lang`: `currentModeRef.current` / `currentLanguageRef.current`;
* `chatRes`: the dialogue result (`none` means `api.chat` threw);
* `scAfter`: `shouldContinueRef.current` as re-read after the awaited
  `speakResponse` calls. -/
def processAudio (blobSize : Nat) (speechDetected : Bool) (scEntry : Bool)
    (tr : Option (String × Bool)) (mode lang : String)
    (chatRes : Option ChatOutcome) (scAfter : Bool) : List TurnAction :=
  if blobSize = 0 ∨ speechDetected = false then
    if scEntry then [TurnAction.scheduleRestart 300]
    else [TurnAction.setPhase JarvisPhase.idle, TurnAction.setListening false]
  else
    [TurnAction.setPhase JarvisPhase.processing, TurnAction.callTranscribe] ++
    match tr with
    | none =>
        [TurnAction.setPhase JarvisPhase.speaking, TurnAction.speak errorApology] ++
        (if scAfter then
          [TurnAction.setPhase JarvisPhase.listening, TurnAction.scheduleRestart 500]
        else [TurnAction.setPhase JarvisPhase.idle])
    | some (text, success) =>
        if success = false ∨ text = "" then
          [TurnAction.setPhase JarvisPhase.speaking, TurnAction.speak hearApology] ++
          (if scAfter then
            [TurnAction.setPhase JarvisPhase.listening, TurnAction.setListening true,
             TurnAction.scheduleRestart 500]
          else [TurnAction.setPhase JarvisPhase.idle, TurnAction.setListening false])
        else
          [TurnAction.addUserMessage text, TurnAction.callChat text mode lang] ++
          match chatRes with
          | none =>
              [TurnAction.setPhase JarvisPhase.speaking, TurnAction.speak errorApology] ++
              (if scAfter then
                [TurnAction.setPhase JarvisPhase.listening, TurnAction.scheduleRestart 500]
              else [TurnAction.setPhase JarvisPhase.idle])
          | some r =>
              (match r.language with
               | some l => [TurnAction.setLanguage l]
               | none => []) ++
              [TurnAction.setPhase JarvisPhase.speaking,
               TurnAction.addAssistantMessage r.response, TurnAction.speak r.response] ++
              (if scAfter then
                [TurnAction.setPhase JarvisPhase.listening, TurnAction.setListening true,
                 TurnAction.scheduleRestart 500]
              else [TurnAction.setPhase JarvisPhase.idle, TurnAction.setListening false])

/-! ## Capture sessions, timers and the orchestrating handlers -/

/-- The mutable state of the `ChatView` engine, together with ghost
resource sets.  `stream`, `recorder`, `rafId` mirror `streamRef`,
`mediaRecorderRef`, `rafIdRef`; `liveStreams` is the ghost set of
microphone streams whose tracks have not been stopped; `recorderRecording`
is the ghost set of `MediaRecorder` objects still in the `recording`
state; `maxTimers` is the multiset of pending `MAX_RECORD_TIME` timeout
deadlines (the source never calls `clearTimeout` on them). -/
structure EngineState where
  isRecording : Bool
  shouldContinue : Bool
  conversationActive : Bool
  jarvisPhase : JarvisPhase
  isListening : Bool
  audioLevel : ℚ
  stream : Option Nat
  recorder : Option Nat
  rafId : Option Nat
  liveStreams : List Nat
  recorderRecording : List Nat
  maxTimers : List Int
  vad : VadState
  tts : TtsState
  deriving DecidableEq

/-- The engine state before any interaction. -/
def initialEngine : EngineState where
  isRecording := false
  shouldContinue := false
  conversationActive := false
  jarvisPhase := JarvisPhase.idle
  isListening := false
  audioLevel := 0
  stream := none
  recorder := none
  rafId := none
  liveStreams := []
  recorderRecording := []
  maxTimers := []
  vad := { speechDetected := false, silenceStart := none }
  tts := { ttsSeq := 0, ttsAbort := none, ttsAudio := none, ttsUrl := none, ttsResolve := none }

/-- `stopRecording`: clear the recording flag, cancel the animation frame,
and stop the *currently referenced* recorder if it is recording.  It does
not touch the microphone stream (that happens in the recorder's `onstop`
handler) and does not cancel any max-duration timer. -/
def stopRecording (s : EngineState) : EngineState :=
  let s1 := { s with isRecording := false, rafId := none }
  match s1.recorder with
  | some r =>
      if r ∈ s1.recorderRecording then
        { s1 with recorderRecording := s1.recorderRecording.filter (fun x => x ≠ r) }
      else s1
  | none => s1

/-- The recorder `onstop` handler, up to the `processAudio` call: stop the
tracks of the currently referenced stream and null the ref. -/
def recorderOnStop (s : EngineState) : EngineState :=
  match s.stream with
  | some st =>
      { s with liveStreams := s.liveStreams.filter (fun x => x ≠ st), stream := none }
  | none => s

/-- `startRecording` up to and including the continuation after
`getUserMedia` succeeds, with fresh stream/recorder identifiers `ns`, `nr`
and the current time `now`: reset the VAD refs, set the recording flag,
overwrite the stream and recorder refs (the *previous* stream, if any, is
not stopped), start the recorder and the monitor loop, and schedule a
`MAX_RECORD_TIME` timeout at `now + 20000`. -/
def startRecording (s : EngineState) (ns nr : Nat) (now : Int) : EngineState :=
  { s with
    vad := { speechDetected := false, silenceStart := none },
    isRecording := true,
    stream := some ns,
    liveStreams := ns :: s.liveStreams,
    recorder := some nr,
    recorderRecording := nr :: s.recorderRecording,
    rafId := some nr,
    maxTimers := s.maxTimers ++ [now + MAX_RECORD_TIME] }

/-- The `MAX_RECORD_TIME` timeout callback for the pending deadline `d`:
`if (isRecordingRef.current) stopRecording()`.  The callback checks only
the shared flag; it carries no session identity. -/
def maxTimerFires (s : EngineState) (d : Int) : EngineState :=
  let s1 := if s.isRecording then stopRecording s else s
  { s1 with maxTimers := s1.maxTimers.erase d }

/-- `stopConversation`: clear the continuous flag and activity flag, stop
TTS, cancel the monitor loop, stop the current recorder and the current
stream's tracks, and reset phase, listening flag and energy display. -/
def stopConversation (s : EngineState) : EngineState × List TtsEffect :=
  let s1 := { s with shouldContinue := false, conversationActive := false,
                     isRecording := false }
  let r := stopTtsNow s1.tts
  let s2 := { s1 with tts := r.1, rafId := none }
  let s3 :=
    match s2.recorder with
    | some rec =>
        if rec ∈ s2.recorderRecording then
          { s2 with recorderRecording := s2.recorderRecording.filter (fun x => x ≠ rec) }
        else s2
    | none => s2
  let s4 :=
    match s3.stream with
    | some st =>
        { s3 with liveStreams := s3.liveStreams.filter (fun x => x ≠ st), stream := none }
    | none => s3
  ({ s4 with jarvisPhase := JarvisPhase.idle, isListening := false, audioLevel := 0 }, r.2)

/-- Result of the synchronous-to-first-await prefix of `handleModeSwitch`. -/
structure ModeSwitchStart where
  state : EngineState
  effects : List TtsEffect
  activeBranch : Bool
  deriving DecidableEq

/-- `handleModeSwitch` up to the `await speakResponse(greeting)`: stop TTS
first; then, if `conversationActive || jarvisPhase !== 'idle'`, retire the
capture session (flag, animation frame, recorder, stream tracks); set the
phase to speaking and start synthesizing the greeting. -/
def handleModeSwitchStart (ttsEnabled : Bool) (s : EngineState) : ModeSwitchStart :=
  let r := stopTtsNow s.tts
  let s1 := { s with tts := r.1 }
  let active := s1.conversationActive || decide (s1.jarvisPhase ≠ JarvisPhase.idle)
  let s2 :=
    if active then
      let sa := { s1 with isRecording := false, rafId := none }
      let sb :=
        match sa.recorder with
        | some rec =>
            if rec ∈ sa.recorderRecording then
              { sa with recorderRecording := sa.recorderRecording.filter (fun x => x ≠ rec) }
            else sa
        | none => sa
      match sb.stream with
      | some st =>
          { sb with liveStreams := sb.liveStreams.filter (fun x => x ≠ st), stream := none }
      | none => sb
    else s1
  let s3 := { s2 with jarvisPhase := JarvisPhase.speaking }
  let spoke := speakResponse ttsEnabled s3.tts
  { state := { s3 with tts := spoke.1 },
    effects := r.2 ++ spoke.2,
    activeBranch := active }

/-- The continuation of `handleModeSwitch` after the greeting playback
settles: on the active branch, re-read `shouldContinueRef` and either go to
listening and schedule `startRecording` after 500 ms, or go idle; on the
inactive branch, go idle without starting capture.  Returns the new state
and the scheduled restart delay, if any. -/
def handleModeSwitchAfterSpeak (s : EngineState) (active : Bool) : EngineState × Option Int :=
  if active then
    if s.shouldContinue then
      ({ s with jarvisPhase := JarvisPhase.listening, isListening := true }, some 500)
    else
      ({ s with jarvisPhase := JarvisPhase.idle }, none)
  else
    ({ s with jarvisPhase := JarvisPhase.idle }, none)

/-! ## Claims -/

/-- C1: calling `speakResponse` while a previous call is outstanding first
runs `stopTtsNow`, which aborts the previous in-flight fetch, stops and
releases any loaded or playing audio, revokes its blob URL, and resolves
the previous call's pending promise; afterwards no audio/URL/resolver of
the old call remains installed, and the old call's fetch arriving later is
discarded without any effect. -/
theorem speakResponse_retires_prior (s : TtsState) :
    (∀ c, s.ttsAbort = some c → TtsEffect.abortFetch c ∈ (speakResponse true s).2) ∧
    (∀ a, s.ttsAudio = some a → TtsEffect.stopAudio a ∈ (speakResponse true s).2) ∧
    (∀ u, s.ttsUrl = some u → TtsEffect.revokeUrl u ∈ (speakResponse true s).2) ∧
    (∀ p, s.ttsResolve = some p → TtsEffect.resolveProm p ∈ (speakResponse true s).2) ∧
    (speakResponse true s).1.ttsAudio = none ∧
    (speakResponse true s).1.ttsUrl = none ∧
    (speakResponse true s).1.ttsResolve = none ∧
    (∀ k, k ≤ s.ttsSeq → (ttsFetchArrived (speakResponse true s).1 k).2 = []) := by
  obtain ⟨seq, ab, au, url, res⟩ := s
  have hmain : ∀ k, k ≤ seq →
      (ttsFetchArrived (speakResponse true ⟨seq, ab, au, url, res⟩).1 k).2 = [] := by
    intro k hk
    have hne : ¬(k = seq + 1) := by omega
    cases ab <;> cases au <;> cases url <;> cases res <;>
      simp [speakResponse, stopTtsNow, ttsFetchArrived, hne]
  refine ⟨fun c hc => ?_, fun a ha => ?_, fun u hu => ?_, fun p hp => ?_, ?_, ?_, ?_,
    hmain⟩ <;>
    cases ab <;> cases au <;> cases url <;> cases res <;>
    simp_all [speakResponse, stopTtsNow]

/-- A TTS state in which call 5 is currently playing. -/
def ttsPlaying : TtsState where
  ttsSeq := 5
  ttsAbort := some 5
  ttsAudio := some 5
  ttsUrl := some 5
  ttsResolve := some 5

/-- Witness for C1 at a concrete playing state. -/
theorem speakResponse_retires_prior_witness :
    TtsEffect.abortFetch 5 ∈ (speakResponse true ttsPlaying).2 ∧
    TtsEffect.stopAudio 5 ∈ (speakResponse true ttsPlaying).2 ∧
    TtsEffect.revokeUrl 5 ∈ (speakResponse true ttsPlaying).2 ∧
    TtsEffect.resolveProm 5 ∈ (speakResponse true ttsPlaying).2 ∧
    (speakResponse true ttsPlaying).1.ttsAudio = none ∧
    (ttsFetchArrived (speakResponse true ttsPlaying).1 5).2 = [] := by
  have h := speakResponse_retires_prior ttsPlaying
  exact ⟨h.1 5 rfl, h.2.1 5 rfl, h.2.2.1 5 rfl, h.2.2.2.1 5 rfl,
    h.2.2.2.2.1, h.2.2.2.2.2.2.2 5 (by decide)⟩

/-- C2: each (enabled) `speakResponse` call is tagged with a strictly
increasing sequence number; a fetch completing after a newer call has been
issued is discarded without playing; a play effect arises only from a fetch
arrival whose tag equals the current (highest) sequence number; and no TTS
operation ever lowers the sequence counter or plays from anywhere else. -/
theorem tts_sequence_numbering :
    (∀ s : TtsState, (speakResponse true s).1.ttsSeq = s.ttsSeq + 1) ∧
    (∀ (s : TtsState) (k : Nat), k < s.ttsSeq →
       (ttsFetchArrived s k).2 = [] ∧
       (ttsFetchArrived s k).1.ttsAudio = s.ttsAudio ∧
       (ttsFetchArrived s k).1.ttsUrl = s.ttsUrl) ∧
    (∀ (s : TtsState) (k j : Nat),
       TtsEffect.playAudio j ∈ (ttsFetchArrived s k).2 → j = s.ttsSeq ∧ k = s.ttsSeq) ∧
    (∀ (en : Bool) (s : TtsState), s.ttsSeq ≤ (speakResponse en s).1.ttsSeq) ∧
    (∀ (s : TtsState) (k : Nat), (ttsFetchArrived s k).1.ttsSeq = s.ttsSeq) ∧
    (∀ (s : TtsState) (k : Nat), (ttsAudioEnded s k).1.ttsSeq = s.ttsSeq) ∧
    (∀ (s : TtsState) (k : Nat), (ttsFetchFailed s k).1.ttsSeq = s.ttsSeq) ∧
    (∀ (en : Bool) (s : TtsState) (j : Nat),
       TtsEffect.playAudio j ∉ (speakResponse en s).2) ∧
    (∀ (s : TtsState) (k j : Nat), TtsEffect.playAudio j ∉ (ttsAudioEnded s k).2) ∧
    (∀ (s : TtsState) (k j : Nat), TtsEffect.playAudio j ∉ (ttsFetchFailed s k).2) := by
  refine ⟨fun s => ?_, fun s k hk => ?_, fun s k j hj => ?_, fun en s => ?_,
    fun s k => ?_, fun s k => ?_, fun s k => ?_, fun en s j => ?_,
    fun s k j => ?_, fun s k j => ?_⟩ <;>
    obtain ⟨seq, ab, au, url, res⟩ := s
  · simp [speakResponse, stopTtsNow]
  · have hne : k ≠ seq := Nat.ne_of_lt hk
    refine ⟨?_, ?_, ?_⟩ <;> by_cases hab : ab = some k <;>
      simp [ttsFetchArrived, hne, hab]
  · by_cases hks : k = seq
    · subst hks
      simp only [ttsFetchArrived, ne_eq, not_true_eq_false, if_false, ite_false,
        if_neg (fun h : ¬(k = k) => h rfl)] at hj
      simp [ttsFetchArrived] at hj
      exact ⟨hj, rfl⟩
    · simp [ttsFetchArrived, hks] at hj
  · cases en <;> simp [speakResponse, stopTtsNow]
  · by_cases hks : k = seq <;> by_cases hab : ab = some k <;>
      simp [ttsFetchArrived, hks, hab]
  · simp only [ttsAudioEnded]
    split_ifs <;> rfl
  · by_cases hab : ab = some k <;> simp [ttsFetchFailed, hab]
  · cases en <;> cases ab <;> cases au <;> cases url <;> cases res <;>
      simp [speakResponse, stopTtsNow]
  · simp only [ttsAudioEnded]
    split_ifs <;> simp
  · by_cases hab : ab = some k <;> simp [ttsFetchFailed, hab]

/-- Witness for C2 at concrete inputs: a stale fetch (tag 3 against current
counter 5) is discarded without playing, and the counter strictly
increases on a call. -/
theorem tts_sequence_numbering_witness :
    (ttsFetchArrived ttsPlaying 3).2 = [] ∧
    (ttsFetchArrived ttsPlaying 3).1.ttsAudio = ttsPlaying.ttsAudio ∧
    (speakResponse true ttsPlaying).1.ttsSeq = ttsPlaying.ttsSeq + 1 := by
  have h := tts_sequence_numbering
  exact ⟨(h.2.1 ttsPlaying 3 (by decide)).1, (h.2.1 ttsPlaying 3 (by decide)).2.1,
    h.1 ttsPlaying⟩

/-- C4: once `speechDetected` is set it stays set on every tick; a sample
above the 0.015 threshold clears the silence start; once speech has been
detected, the first at-or-below-threshold sample records the silence start
time, and a later silent tick occurring more than 1500 ms after it stops
the session with `speechDetected` still true. -/
theorem monitorAudio_endpointing :
    (∀ (st : VadState) (l : ℚ) (t : Int), st.speechDetected = true →
       (monitorAudio st l t).vad.speechDetected = true) ∧
    (∀ (st : VadState) (l : ℚ) (t : Int), SILENCE_THRESHOLD < l →
       (monitorAudio st l t).vad.silenceStart = none ∧
       (monitorAudio st l t).vad.speechDetected = true ∧
       (monitorAudio st l t).stopRequested = false) ∧
    (∀ (st : VadState) (l : ℚ) (t : Int), l ≤ SILENCE_THRESHOLD →
       st.speechDetected = true → st.silenceStart = none →
       (monitorAudio st l t).vad.silenceStart = some t ∧
       (monitorAudio st l t).stopRequested = false) ∧
    (∀ (st : VadState) (l : ℚ) (t t0 : Int), l ≤ SILENCE_THRESHOLD →
       st.speechDetected = true → st.silenceStart = some t0 →
       t - t0 > SILENCE_DURATION →
       (monitorAudio st l t).stopRequested = true ∧
       (monitorAudio st l t).vad.speechDetected = true) := by
  refine ⟨fun st l t hd => ?_, fun st l t hl => ?_, fun st l t hl hd h0 => ?_,
    fun st l t t0 hl hd h0 hdur => ?_⟩ <;>
    obtain ⟨sd, ss⟩ := st
  · by_cases hl : SILENCE_THRESHOLD < l
    · simp [monitorAudio, hl]
    · cases hss : ss <;> simp_all [monitorAudio, hl] <;> split_ifs <;> rfl
  · simp [monitorAudio, hl]
  · simp_all [monitorAudio, not_lt.mpr hl]
  · simp_all [monitorAudio, not_lt.mpr hl, hdur]

/-- Witness for C4 at concrete samples: level 0.02 clears the silence
start; level 0.01 at time 100 sets it; level 0.01 at time 1601 (silence
start 100, more than 1500 ms earlier) stops with speech still detected. -/
theorem monitorAudio_endpointing_witness :
    (monitorAudio ⟨true, some 0⟩ (mkRat 2 100) 50).vad.silenceStart = none ∧
    (monitorAudio ⟨true, none⟩ (mkRat 1 100) 100).vad.silenceStart = some 100 ∧
    (monitorAudio ⟨true, some 100⟩ (mkRat 1 100) 1601).stopRequested = true ∧
    (monitorAudio ⟨true, some 100⟩ (mkRat 1 100) 1601).vad.speechDetected = true := by
  have h := monitorAudio_endpointing
  exact ⟨(h.2.1 ⟨true, some 0⟩ (mkRat 2 100) 50 (by decide)).1,
    (h.2.2.1 ⟨true, none⟩ (mkRat 1 100) 100 (by decide) rfl rfl).1,
    (h.2.2.2 ⟨true, some 100⟩ (mkRat 1 100) 1601 100 (by decide) rfl rfl (by decide)).1,
    (h.2.2.2 ⟨true, some 100⟩ (mkRat 1 100) 1601 100 (by decide) rfl rfl (by decide)).2⟩

/-- C7: over any sample sequence whose every level stays below 0.015 the
VAD refs never change (`speechDetected` stays false, no automatic stop),
and a session that ends with `speechDetected = false` never calls
transcription and never speaks: with the continuous flag set it only
schedules a restart after 300 ms, otherwise it goes idle. -/
theorem silent_session_no_transcription :
    (∀ samples : List (ℚ × Int), (∀ p ∈ samples, p.1 < SILENCE_THRESHOLD) →
       monitorRun ⟨false, none⟩ samples = (⟨false, none⟩, false)) ∧
    (∀ (n : Nat) (b1 : Bool) (tr : Option (String × Bool)) (m l : String)
       (ch : Option ChatOutcome) (b2 : Bool),
       TurnAction.callTranscribe ∉ processAudio n false b1 tr m l ch b2 ∧
       (∀ t, TurnAction.speak t ∉ processAudio n false b1 tr m l ch b2)) ∧
    (∀ (n : Nat) (tr : Option (String × Bool)) (m l : String)
       (ch : Option ChatOutcome) (b2 : Bool),
       processAudio n false true tr m l ch b2 = [TurnAction.scheduleRestart 300] ∧
       processAudio n false false tr m l ch b2 =
         [TurnAction.setPhase JarvisPhase.idle, TurnAction.setListening false]) := by
  refine ⟨fun samples h => ?_, fun n b1 tr m l ch b2 => ?_, fun n tr m l ch b2 => ?_⟩
  · induction samples with
    | nil => rfl
    | cons p rest ih =>
        have hp : ¬(SILENCE_THRESHOLD < p.1) := not_lt.mpr (h p (by simp)).le
        have hstep : monitorAudio ⟨false, none⟩ p.1 p.2 = ⟨⟨false, none⟩, false⟩ := by
          simp [monitorAudio, hp]
        simp only [monitorRun, hstep]
        exact ih fun q hq => h q (List.mem_cons_of_mem _ hq)
  · cases b1 <;> simp [processAudio]
  · simp [processAudio]

/-- Witness for C7 at a concrete all-quiet sample sequence and concrete
pipeline inputs. -/
theorem silent_session_no_transcription_witness :
    monitorRun ⟨false, none⟩ [(mkRat 1 100, 0), (mkRat 1 100, 2000), (0, 4000)] =
      (⟨false, none⟩, false) ∧
    TurnAction.callTranscribe ∉
      processAudio 10 false true (some ("hi", true)) ("chat") ("en") none true ∧
    processAudio 10 false true (some ("hi", true)) ("chat") ("en") none true =
      [TurnAction.scheduleRestart 300] := by
  refine ⟨silent_session_no_transcription.1 _ (by decide), ?_, ?_⟩
  · exact (silent_session_no_transcription.2.1 10 true (some ("hi", true)) "chat" "en"
      none true).1
  · exact (silent_session_no_transcription.2.2 10 (some ("hi", true)) "chat" "en"
      none true).1

/-- The apology text as the claim quotes it. -/
def claimedHearApology : String := "I couldn\x27t hear that, please try again"

/-- C8 counterexample: on a failed transcription the pipeline does not
speak the claim's quoted apology text; the fixed apology actually spoken
is "I couldn\x27t hear that. Please try again." -/
theorem transcription_failure_apology_counterexample :
    TurnAction.speak claimedHearApology ∉
      processAudio 5 true true (some ("", false)) ("chat") ("en") none true ∧
    TurnAction.speak hearApology ∈
      processAudio 5 true true (some ("", false)) ("chat") ("en") none true := by
  decide

/-- C8 (amended): whenever the transcription result has `success = false`
or empty text, the fixed apology "I couldn\x27t hear that. Please try
again." is spoken, and afterwards: with the continuous flag true the phase
goes to listening and a capture restart is scheduled after 500 ms;
otherwise the phase goes to idle.  No dialogue-service call is made for
that turn. -/
theorem transcription_failure_apology (n : Nat) (hn : n ≠ 0)
    (t : String) (ok : Bool) (hfail : ok = false ∨ t = "")
    (sc scA : Bool) (m l : String) (ch : Option ChatOutcome) :
    processAudio n true sc (some (t, ok)) m l ch scA =
      [TurnAction.setPhase JarvisPhase.processing, TurnAction.callTranscribe,
       TurnAction.setPhase JarvisPhase.speaking, TurnAction.speak hearApology] ++
      (if scA then
        [TurnAction.setPhase JarvisPhase.listening, TurnAction.setListening true,
         TurnAction.scheduleRestart 500]
      else [TurnAction.setPhase JarvisPhase.idle, TurnAction.setListening false]) ∧
    (∀ u m2 l2, TurnAction.callChat u m2 l2 ∉
        processAudio n true sc (some (t, ok)) m l ch scA) := by
  have hmain : processAudio n true sc (some (t, ok)) m l ch scA =
      [TurnAction.setPhase JarvisPhase.processing, TurnAction.callTranscribe,
       TurnAction.setPhase JarvisPhase.speaking, TurnAction.speak hearApology] ++
      (if scA then
        [TurnAction.setPhase JarvisPhase.listening, TurnAction.setListening true,
         TurnAction.scheduleRestart 500]
      else [TurnAction.setPhase JarvisPhase.idle, TurnAction.setListening false]) := by
    rcases hfail with hok | ht
    · subst hok
      simp [processAudio, hn]
    · subst ht
      simp [processAudio, hn]
  refine ⟨hmain, fun u m2 l2 => ?_⟩
  rw [hmain]
  cases scA <;> simp

/-- Witness for C8 (amended) at concrete inputs. -/
theorem transcription_failure_apology_witness :
    processAudio 5 true true (some ("", false)) ("chat") ("en") none true =
      [TurnAction.setPhase JarvisPhase.processing, TurnAction.callTranscribe,
       TurnAction.setPhase JarvisPhase.speaking, TurnAction.speak hearApology,
       TurnAction.setPhase JarvisPhase.listening, TurnAction.setListening true,
       TurnAction.scheduleRestart 500] ∧
    TurnAction.callChat ("") ("chat") ("en") ∉
      processAudio 5 true true (some ("", false)) ("chat") ("en") none true := by
  have h := transcription_failure_apology 5 (by decide) "" false (Or.inl rfl)
    true true ("chat") ("en") none
  exact ⟨h.1, h.2 ("") ("chat") ("en")⟩

/-- C3 counterexample: running `startRecording` while a capture session is
already live does not retire the previous session: after a second
`startRecording`, both microphone streams are still live and both
recorders are still recording — two capture sessions exist at once. -/
theorem capture_overlap_counterexample :
    1 ∈ (startRecording (startRecording initialEngine 1 1 0) 2 2 100).liveStreams ∧
    2 ∈ (startRecording (startRecording initialEngine 1 1 0) 2 2 100).liveStreams ∧
    1 ∈ (startRecording (startRecording initialEngine 1 1 0) 2 2 100).recorderRecording ∧
    2 ∈ (startRecording (startRecording initialEngine 1 1 0) 2 2 100).recorderRecording := by
  decide

/-- C3 (amended): at most one active playback request exists —
`speakResponse` retires the previous one via `stopTtsNow` before starting
a new fetch — but `startRecording` itself does not retire a previous
capture session: it overwrites the stream and recorder refs, leaving the
previous session's microphone stream live and its recorder recording, so
the at-most-one-capture-session invariant relies on the callers stopping
the old session before a restart. -/
theorem single_playback_capture_not_retired (s : EngineState) (ns nr : Nat) (now : Int) :
    (∀ a, s.tts.ttsAudio = some a →
       TtsEffect.stopAudio a ∈ (speakResponse true s.tts).2) ∧
    (speakResponse true s.tts).1.ttsAudio = none ∧
    (startRecording s ns nr now).liveStreams = ns :: s.liveStreams ∧
    (startRecording s ns nr now).recorderRecording = nr :: s.recorderRecording ∧
    (∀ old, old ∈ s.liveStreams → old ∈ (startRecording s ns nr now).liveStreams) ∧
    (∀ old, old ∈ s.recorderRecording →
       old ∈ (startRecording s ns nr now).recorderRecording) := by
  obtain ⟨irec, scont, cact, ph, lis, lvl, stm, rec, raf, ls, rr, mt, vad, tts⟩ := s
  obtain ⟨seq, ab, au, url, res⟩ := tts
  refine ⟨fun a ha => ?_, ?_, rfl, rfl, fun old h => ?_, fun old h => ?_⟩
  · cases ab <;> cases au <;> cases url <;> cases res <;>
      simp_all [speakResponse, stopTtsNow]
  · cases ab <;> cases au <;> cases url <;> cases res <;>
      simp [speakResponse, stopTtsNow]
  · exact List.mem_cons_of_mem _ h
  · exact List.mem_cons_of_mem _ h

/-- Witness for C3 (amended) at a concrete state with audio 5 playing and
stream/recorder 1 live. -/
theorem single_playback_capture_not_retired_witness :
    TtsEffect.stopAudio 5 ∈
      (speakResponse true (startRecording initialEngine 1 1 0 |>.tts)).2 ∨
    (1 ∈ (startRecording (startRecording initialEngine 1 1 0) 2 2 100).liveStreams ∧
     (startRecording (startRecording initialEngine 1 1 0) 2 2 100).liveStreams =
       2 :: (startRecording initialEngine 1 1 0).liveStreams) :=
  Or.inr ⟨(single_playback_capture_not_retired (startRecording initialEngine 1 1 0)
      2 2 100).2.2.2.2.1 1 (by decide),
    (single_playback_capture_not_retired (startRecording initialEngine 1 1 0)
      2 2 100).2.2.1⟩

/-- C5 counterexample: if a second session overlaps the first (session 1
started at t = 0, session 2 at t = 5000 with session 1 never stopped),
then after both 20 s timeouts have fired (t = 20000 and t = 25000) session
1's recorder is still recording — it has been recording for more than
20000 ms and no max-duration timeout can ever stop it, because the
timeouts only stop the currently referenced recorder. -/
theorem max_record_time_counterexample :
    (maxTimerFires (maxTimerFires
        (startRecording (startRecording initialEngine 1 1 0) 2 2 5000)
        20000) 25000).maxTimers = [] ∧
    1 ∈ (maxTimerFires (maxTimerFires
        (startRecording (startRecording initialEngine 1 1 0) 2 2 5000)
        20000) 25000).recorderRecording := by
  decide

/-- C5 (amended): every `startRecording` schedules a timeout at its start
time plus `MAX_RECORD_TIME` (20000 ms), and whenever any such timeout
fires, the recording flag is cleared and the *currently referenced*
recorder is stopped regardless of the VAD state — so the current capture
session never remains actively recording past a pending 20 s deadline;
only a session orphaned by an overlapping `startRecording` (which replaces
the recorder ref) escapes this bound. -/
theorem max_record_time_bound (s : EngineState) (ns nr : Nat) (now d : Int) :
    (startRecording s ns nr now).maxTimers = s.maxTimers ++ [now + MAX_RECORD_TIME] ∧
    MAX_RECORD_TIME = 20000 ∧
    (maxTimerFires s d).isRecording = false ∧
    (∀ r, s.isRecording = true → s.recorder = some r →
       r ∉ (maxTimerFires s d).recorderRecording) := by
  obtain ⟨irec, scont, cact, ph, lis, lvl, stm, rec, raf, ls, rr, mt, vad, tts⟩ := s
  refine ⟨rfl, rfl, ?_, fun r hrec hr => ?_⟩
  · cases irec <;> cases rec <;>
      simp [maxTimerFires, stopRecording] <;> split_ifs <;> rfl
  · subst hrec
    cases rec <;> simp_all [maxTimerFires, stopRecording]
    split_ifs with hmem <;> simp_all [List.mem_filter]

/-- Witness for C5 (amended): a single session started at t = 0 is no
longer recording once its own deadline fires. -/
theorem max_record_time_bound_witness :
    (maxTimerFires (startRecording initialEngine 1 1 0) 20000).isRecording = false ∧
    1 ∉ (maxTimerFires (startRecording initialEngine 1 1 0) 20000).recorderRecording :=
  ⟨(max_record_time_bound (startRecording initialEngine 1 1 0) 1 1 0 20000).2.2.1,
   (max_record_time_bound (startRecording initialEngine 1 1 0) 1 1 0 20000).2.2.2
     1 rfl rfl⟩

/-- C10: the 20 s max-duration timeout scheduled by `startRecording` is
never cancelled — no engine operation other than its own firing removes a
pending deadline — and when it fires it checks only the shared recording
flag, stopping whichever recording is current at that moment; hence a
stale timeout from an earlier session can stop a session started within
20 s of the earlier one before the new session's own deadline or any VAD
end-point, as the concrete scenario (old session at t = 0, new session at
t = 5000, stopped by the stale deadline at t = 20000 while its own
deadline 25000 is still pending) shows. -/
theorem stale_max_timeout (s : EngineState) (d : Int) :
    (∀ ns nr now, (startRecording s ns nr now).maxTimers
        = s.maxTimers ++ [now + MAX_RECORD_TIME]) ∧
    (stopRecording s).maxTimers = s.maxTimers ∧
    (recorderOnStop s).maxTimers = s.maxTimers ∧
    (stopConversation s).1.maxTimers = s.maxTimers ∧
    (∀ en, (handleModeSwitchStart en s).state.maxTimers = s.maxTimers) ∧
    (maxTimerFires s d).maxTimers
        = (if s.isRecording then stopRecording s else s).maxTimers.erase d ∧
    (s.isRecording = true →
       (maxTimerFires s d).isRecording = false ∧
       (∀ r, s.recorder = some r → r ∉ (maxTimerFires s d).recorderRecording)) ∧
    ((startRecording (recorderOnStop (stopRecording
        (startRecording initialEngine 1 1 0))) 2 2 5000).isRecording = true ∧
     (startRecording (recorderOnStop (stopRecording
        (startRecording initialEngine 1 1 0))) 2 2 5000).maxTimers = [20000, 25000] ∧
     (maxTimerFires (startRecording (recorderOnStop (stopRecording
        (startRecording initialEngine 1 1 0))) 2 2 5000) 20000).isRecording = false ∧
     2 ∉ (maxTimerFires (startRecording (recorderOnStop (stopRecording
        (startRecording initialEngine 1 1 0))) 2 2 5000) 20000).recorderRecording ∧
     (maxTimerFires (startRecording (recorderOnStop (stopRecording
        (startRecording initialEngine 1 1 0))) 2 2 5000) 20000).maxTimers = [25000]) := by
  obtain ⟨irec, scont, cact, ph, lis, lvl, stm, rec, raf, ls, rr, mt, vad, tts⟩ := s
  obtain ⟨seq, ab, au, url, res⟩ := tts
  refine ⟨fun ns nr now => rfl, ?_, ?_, ?_, fun en => ?_, ?_, fun hrec => ⟨?_, fun r hr => ?_⟩,
    by decide⟩
  · cases rec <;> simp only [stopRecording] <;> split_ifs <;> rfl
  · cases stm <;> simp only [recorderOnStop] <;> rfl
  · cases rec <;> cases stm <;>
      simp only [stopConversation, stopTtsNow] <;> split_ifs <;> rfl
  · cases en <;> cases rec <;> cases stm <;> cases cact <;> cases ph <;>
      simp only [handleModeSwitchStart, stopTtsNow, speakResponse] <;>
      split_ifs <;> rfl
  · cases irec <;> cases rec <;>
      simp only [maxTimerFires, stopRecording, Bool.false_eq_true, if_true, if_false] <;>
      split_ifs <;> rfl
  · subst hrec
    cases rec <;> simp [maxTimerFires, stopRecording] <;> split_ifs <;> rfl
  · subst hrec
    cases rec <;> simp_all [maxTimerFires, stopRecording]
    split_ifs with hmem <;> simp_all [List.mem_filter]

/-- Witness for C10 at a concrete recording state: firing any pending
deadline stops the current session. -/
theorem stale_max_timeout_witness :
    (maxTimerFires (startRecording initialEngine 3 3 0) 20000).isRecording = false ∧
    3 ∉ (maxTimerFires (startRecording initialEngine 3 3 0) 20000).recorderRecording :=
  ⟨((stale_max_timeout (startRecording initialEngine 3 3 0) 20000).2.2.2.2.2.2.1
      rfl).1,
   ((stale_max_timeout (startRecording initialEngine 3 3 0) 20000).2.2.2.2.2.2.1
      rfl).2 3 rfl⟩

/-- A concrete state in mid-listen: conversation active, session 1
recording, speech already detected, no TTS activity. -/
def engagedState : EngineState where
  isRecording := true
  shouldContinue := true
  conversationActive := true
  jarvisPhase := JarvisPhase.listening
  isListening := true
  audioLevel := mkRat 2 100
  stream := some 1
  recorder := some 1
  rafId := some 1
  liveStreams := [1]
  recorderRecording := [1]
  maxTimers := [20000]
  vad := { speechDetected := true, silenceStart := none }
  tts := { ttsSeq := 0, ttsAbort := none, ttsAudio := none, ttsUrl := none,
           ttsResolve := none }

/-- C6 counterexample: a stop request arriving in the Listening state
after speech was detected does not prevent transcription of the
in-progress utterance: `stopConversation` stops the recorder but leaves
`speechDetectedRef` set, and the recorder's `onstop` handler then runs
`processAudio`, which calls the transcription service because the blob is
nonempty and speech was detected. -/
theorem stopConversation_still_transcribes_counterexample :
    (stopConversation engagedState).1.jarvisPhase = JarvisPhase.idle ∧
    (stopConversation engagedState).1.vad.speechDetected = true ∧
    TurnAction.callTranscribe ∈
      processAudio 10 (stopConversation engagedState).1.vad.speechDetected
        (stopConversation engagedState).1.shouldContinue (some ("hello", true))
        ("chat") ("en") none (stopConversation engagedState).1.shouldContinue := by
  decide

/-- C6 (amended): an explicit stop request moves the system to Idle —
capture is cancelled and the microphone released immediately, in-flight
playback is cancelled and its pending promise resolved, the continuous
flag is cleared and the energy display reset — but the in-progress
utterance escapes transcription only when no speech had been detected (or
the blob is empty); if speech had been detected, the recorder's stop
handler still calls transcription for it. -/
theorem stopConversation_goes_idle (s : EngineState) :
    (stopConversation s).1.jarvisPhase = JarvisPhase.idle ∧
    (stopConversation s).1.shouldContinue = false ∧
    (stopConversation s).1.conversationActive = false ∧
    (stopConversation s).1.isRecording = false ∧
    (stopConversation s).1.isListening = false ∧
    (stopConversation s).1.audioLevel = 0 ∧
    (stopConversation s).1.stream = none ∧
    (stopConversation s).1.rafId = none ∧
    (∀ st, s.stream = some st → st ∉ (stopConversation s).1.liveStreams) ∧
    (∀ r, s.recorder = some r → r ∉ (stopConversation s).1.recorderRecording) ∧
    (∀ a, s.tts.ttsAudio = some a → TtsEffect.stopAudio a ∈ (stopConversation s).2) ∧
    (∀ p, s.tts.ttsResolve = some p →
       TtsEffect.resolveProm p ∈ (stopConversation s).2) ∧
    (∀ c, s.tts.ttsAbort = some c → TtsEffect.abortFetch c ∈ (stopConversation s).2) ∧
    (stopConversation s).1.tts.ttsAudio = none ∧
    (stopConversation s).1.tts.ttsAbort = none ∧
    (∀ n b1 tr m l ch b2, TurnAction.callTranscribe ∉ processAudio n false b1 tr m l ch b2) ∧
    (∀ sd b1 tr m l ch b2, TurnAction.callTranscribe ∉ processAudio 0 sd b1 tr m l ch b2) ∧
    (∀ n b1 tr m l ch b2, n ≠ 0 →
       TurnAction.callTranscribe ∈ processAudio n true b1 tr m l ch b2) := by
  obtain ⟨irec, scont, cact, ph, lis, lvl, stm, rec, raf, ls, rr, mt, vad, tts⟩ := s
  obtain ⟨seq, ab, au, url, res⟩ := tts
  refine ⟨?_, ?_, ?_, ?_, ?_, ?_, ?_, ?_, fun st hst => ?_, fun r hr => ?_,
    fun a ha => ?_, fun p hp => ?_, fun c hc => ?_, ?_, ?_,
    fun n b1 tr m l ch b2 => ?_, fun sd b1 tr m l ch b2 => ?_,
    fun n b1 tr m l ch b2 hn => ?_⟩
  · cases rec <;> cases stm <;> simp only [stopConversation, stopTtsNow] <;>
      split_ifs <;> rfl
  · cases rec <;> cases stm <;> simp only [stopConversation, stopTtsNow] <;>
      split_ifs <;> rfl
  · cases rec <;> cases stm <;> simp only [stopConversation, stopTtsNow] <;>
      split_ifs <;> rfl
  · cases rec <;> cases stm <;> simp only [stopConversation, stopTtsNow] <;>
      split_ifs <;> rfl
  · cases rec <;> cases stm <;> simp only [stopConversation, stopTtsNow] <;>
      split_ifs <;> rfl
  · cases rec <;> cases stm <;> simp only [stopConversation, stopTtsNow] <;>
      split_ifs <;> rfl
  · cases rec <;> cases stm <;> simp only [stopConversation, stopTtsNow] <;>
      split_ifs <;> rfl
  · cases rec <;> cases stm <;> simp only [stopConversation, stopTtsNow] <;>
      split_ifs <;> rfl
  · cases rec <;> cases stm <;> simp_all [stopConversation, stopTtsNow] <;>
      split_ifs <;> simp [List.mem_filter]
  · cases rec <;> cases stm <;> simp_all [stopConversation, stopTtsNow] <;>
      split_ifs with h1 h2 <;> simp_all [List.mem_filter]
  · cases rec <;> cases stm <;>
      cases ab <;> cases au <;> cases url <;> cases res <;>
      simp_all [stopConversation, stopTtsNow] <;> split_ifs <;> simp
  · cases rec <;> cases stm <;>
      cases ab <;> cases au <;> cases url <;> cases res <;>
      simp_all [stopConversation, stopTtsNow] <;> split_ifs <;> simp
  · cases rec <;> cases stm <;>
      cases ab <;> cases au <;> cases url <;> cases res <;>
      simp_all [stopConversation, stopTtsNow] <;> split_ifs <;> simp
  · cases rec <;> cases stm <;> simp only [stopConversation, stopTtsNow] <;>
      split_ifs <;> rfl
  · cases rec <;> cases stm <;> simp only [stopConversation, stopTtsNow] <;>
      split_ifs <;> rfl
  · cases b1 <;> simp [processAudio]
  · cases sd <;> cases b1 <;> simp [processAudio]
  · simp [processAudio, hn]

/-- Witness for C6 (amended) at the concrete mid-listen state. -/
theorem stopConversation_goes_idle_witness :
    (stopConversation engagedState).1.jarvisPhase = JarvisPhase.idle ∧
    1 ∉ (stopConversation engagedState).1.liveStreams ∧
    1 ∉ (stopConversation engagedState).1.recorderRecording ∧
    TurnAction.callTranscribe ∉
      processAudio 10 false true (some ("hello", true)) ("chat") ("en") none true :=
  ⟨(stopConversation_goes_idle engagedState).1,
   (stopConversation_goes_idle engagedState).2.2.2.2.2.2.2.2.1 1 rfl,
   (stopConversation_goes_idle engagedState).2.2.2.2.2.2.2.2.2.1 1 rfl,
   (stopConversation_goes_idle engagedState).2.2.2.2.2.2.2.2.2.2.2.2.2.2.2.1
     10 true (some ("hello", true)) ("chat") ("en") none true⟩

set_option maxHeartbeats 3200000 in
/-- C9: a mode switch first cancels any in-flight playback (the stop
effects precede the greeting's fetch in the effect sequence); if a
conversation is active (`conversationActive` or a non-Idle phase) the
capture session is stopped and the microphone released, the phase becomes
Speaking, and the greeting synthesis starts; after the greeting settles,
capture restarts (after 500 ms) with phase Listening iff the continuous
flag is still true, else the phase becomes Idle; with no active
conversation the greeting is spoken and the phase returns to Idle with no
capture scheduled. -/
theorem handleModeSwitch_spec (en : Bool) (s s2 : EngineState) :
    (handleModeSwitchStart en s).effects =
      (stopTtsNow s.tts).2 ++ (speakResponse en (stopTtsNow s.tts).1).2 ∧
    (∀ a, s.tts.ttsAudio = some a →
       TtsEffect.stopAudio a ∈ (stopTtsNow s.tts).2) ∧
    (en = true → TtsEffect.startFetch (s.tts.ttsSeq + 1) ∈
       (handleModeSwitchStart en s).effects) ∧
    (s.jarvisPhase ≠ JarvisPhase.idle → (handleModeSwitchStart en s).activeBranch = true) ∧
    (s.conversationActive = false → s.jarvisPhase = JarvisPhase.idle →
       (handleModeSwitchStart en s).activeBranch = false) ∧
    ((handleModeSwitchStart en s).activeBranch = true →
       (handleModeSwitchStart en s).state.stream = none ∧
       (handleModeSwitchStart en s).state.isRecording = false ∧
       (handleModeSwitchStart en s).state.jarvisPhase = JarvisPhase.speaking ∧
       (∀ st, s.stream = some st →
          st ∉ (handleModeSwitchStart en s).state.liveStreams) ∧
       (∀ r, s.recorder = some r →
          r ∉ (handleModeSwitchStart en s).state.recorderRecording)) ∧
    ((handleModeSwitchStart en s).activeBranch = false →
       (handleModeSwitchStart en s).state.jarvisPhase = JarvisPhase.speaking ∧
       (handleModeSwitchStart en s).state.stream = s.stream ∧
       (handleModeSwitchStart en s).state.liveStreams = s.liveStreams ∧
       (handleModeSwitchStart en s).state.isRecording = s.isRecording ∧
       (handleModeSwitchStart en s).state.recorderRecording = s.recorderRecording) ∧
    (s2.shouldContinue = true →
       handleModeSwitchAfterSpeak s2 true =
         ({ s2 with jarvisPhase := JarvisPhase.listening, isListening := true },
          some 500)) ∧
    (s2.shouldContinue = false →
       handleModeSwitchAfterSpeak s2 true =
         ({ s2 with jarvisPhase := JarvisPhase.idle }, none)) ∧
    handleModeSwitchAfterSpeak s2 false =
      ({ s2 with jarvisPhase := JarvisPhase.idle }, none) ∧
    (∀ active : Bool, (handleModeSwitchAfterSpeak s2 active).2 = some 500 ↔
       (active = true ∧ s2.shouldContinue = true)) := by
  obtain ⟨irec, scont, cact, ph, lis, lvl, stm, rec, raf, ls, rr, mt, vad, tts⟩ := s
  obtain ⟨seq, ab, au, url, res⟩ := tts
  have heff : (handleModeSwitchStart en
      ⟨irec, scont, cact, ph, lis, lvl, stm, rec, raf, ls, rr, mt, vad,
        ⟨seq, ab, au, url, res⟩⟩).effects =
      (stopTtsNow ⟨seq, ab, au, url, res⟩).2 ++
      (speakResponse en (stopTtsNow ⟨seq, ab, au, url, res⟩).1).2 := by
    cases cact <;> cases ph <;> cases rec <;> cases stm <;>
      simp only [handleModeSwitchStart] <;> split_ifs <;> rfl
  refine ⟨heff, fun a ha => ?_, fun hen => ?_, fun hph => ?_, fun hca hph => ?_,
    fun hact => ?_, fun hact => ?_, fun hsc => ?_, fun hsc => ?_, ?_, fun active => ?_⟩
  · cases ab <;> cases au <;> cases url <;> cases res <;>
      simp_all [stopTtsNow]
  · subst hen
    rw [heff]
    simp [speakResponse, stopTtsNow]
  · cases cact <;> cases ph <;> simp_all [handleModeSwitchStart]
  · subst hca hph
    simp [handleModeSwitchStart]
  · cases cact <;> cases ph <;> cases rec <;> cases stm <;>
      simp_all [handleModeSwitchStart, stopTtsNow, List.mem_filter] <;>
      split_ifs <;> simp_all [List.mem_filter]
  · cases cact <;> cases ph <;> cases rec <;> cases stm <;>
      simp_all [handleModeSwitchStart, stopTtsNow]
  · obtain ⟨i2, sc2, ca2, ph2, li2, lv2, st2, re2, ra2, ls2, rr2, mt2, va2, tt2⟩ := s2
    simp_all [handleModeSwitchAfterSpeak]
  · obtain ⟨i2, sc2, ca2, ph2, li2, lv2, st2, re2, ra2, ls2, rr2, mt2, va2, tt2⟩ := s2
    simp_all [handleModeSwitchAfterSpeak]
  · simp [handleModeSwitchAfterSpeak]
  · obtain ⟨i2, sc2, ca2, ph2, li2, lv2, st2, re2, ra2, ls2, rr2, mt2, va2, tt2⟩ := s2
    cases active <;> cases sc2 <;> simp [handleModeSwitchAfterSpeak]

/-- Witness for C9 at a concrete mid-listen state with audio playing. -/
theorem handleModeSwitch_spec_witness :
    (handleModeSwitchStart true engagedState).activeBranch = true ∧
    (handleModeSwitchStart true engagedState).state.stream = none ∧
    1 ∉ (handleModeSwitchStart true engagedState).state.liveStreams ∧
    TtsEffect.startFetch 1 ∈ (handleModeSwitchStart true engagedState).effects ∧
    (handleModeSwitchAfterSpeak engagedState true).2 = some 500 :=
  ⟨(handleModeSwitch_spec true engagedState engagedState).2.2.2.1 (by decide),
   ((handleModeSwitch_spec true engagedState engagedState).2.2.2.2.2.1 (by decide)).1,
   ((handleModeSwitch_spec true engagedState engagedState).2.2.2.2.2.1
      (by decide)).2.2.2.1 1 rfl,
   (handleModeSwitch_spec true engagedState engagedState).2.2.1 rfl,
   ((handleModeSwitch_spec true engagedState
      engagedState).2.2.2.2.2.2.2.2.2.2 true).mpr ⟨rfl, rfl⟩⟩
